import Mathlib

/-!
Shallow embedding of the Bunny model viewer (src/main.cpp).

Conventions used throughout:
* C++ `float`/`double` values are modelled as exact rationals (`ℚ`); the
  program compares vertex attributes with exact `==`, so the equality
  structure carries over unchanged.
* `glm` matrices are column-major; we embed them as Mathlib matrices in the
  row-major reading `M r c = glmMatrix[c][r]`, under which glm's matrix
  product coincides with `Matrix.mul`.
* The transcendental values produced by `tan`/`cos`/`sin` are abstracted as
  parameters of the camera function, since the claims checked here concern
  the matrix composition structure, not trigonometric identities.
* `std::unordered_map<Vertex, uint32_t>` is modelled as an association list
  keyed by exact vertex equality: the program only ever calls `count`,
  `operator[]`-lookup and `operator[]`-insert, all of which are
  order-insensitive, so the association list is an exact model.
* Index values pushed into the `uint32_t` index buffer are modelled as `ℕ`;
  the `static_cast<uint32_t>` truncation is unreachable for any input the
  process can hold in memory (it would need 2^32 distinct vertices).
-/

namespace Bunny

/-- glm::vec2, exact components. -/
structure Vec2 where
  x : ℚ
  y : ℚ
deriving DecidableEq, Repr

/-- glm::vec4, exact components. -/
structure Vec4 where
  x : ℚ
  y : ℚ
  z : ℚ
  w : ℚ
deriving DecidableEq, Repr

/-- The Vertex struct of main.cpp (position, color, texcoord).
Its `operator==` is exact field-wise comparison, which is exactly the
derived structural equality here. -/
structure Vertex where
  position : Vec4
  color : Vec4
  texcoord : Vec2
deriving DecidableEq, Repr

/-- One face-vertex reference of the parsed OBJ file: the pair of a
position index and a texcoord index (tinyobj::index_t, fields
vertex_index / texcoord_index). -/
structure ObjIndex where
  vertex_index : Nat
  texcoord_index : Nat
deriving DecidableEq, Repr

/-- tinyobj::attrib_t — the flat float arrays of positions and texcoords. -/
structure Attrib where
  vertices : List ℚ
  texcoords : List ℚ
deriving DecidableEq, Repr

/-- One tinyobj::shape_t: its mesh.indices list of face-vertex references. -/
structure Shape where
  meshIndices : List ObjIndex
deriving DecidableEq, Repr

/-- Flat array access `arr[i]` (in-range for every well-formed parse). -/
def attrF (l : List ℚ) (i : Nat) : ℚ := l.getD i 0

/-- The candidate Vertex built inside the loadModel loop for one face-vertex
reference: three position floats with fixed w = 1.0, two texcoord floats,
and the constant color (1,1,1,1). -/
def mkVertex (a : Attrib) (idx : ObjIndex) : Vertex :=
  { position := ⟨attrF a.vertices (3 * idx.vertex_index + 0),
                 attrF a.vertices (3 * idx.vertex_index + 1),
                 attrF a.vertices (3 * idx.vertex_index + 2), 1⟩
    color := ⟨1, 1, 1, 1⟩
    texcoord := ⟨attrF a.texcoords (2 * idx.texcoord_index + 0),
                 attrF a.texcoords (2 * idx.texcoord_index + 1)⟩ }

/-- The mutable state touched by loadModel: the two process-global output
lists plus the call-local `uniqueVertices` map (modelled as an association
list from Vertex to its assigned output index). -/
structure LoadState where
  vertices : List Vertex
  indices : List Nat
  uniqueVertices : List (Vertex × Nat)
deriving DecidableEq, Repr

/-- Lookup in the modelled unordered_map, keyed by exact Vertex equality
(Vertex::operator==). Returns the stored index, if present. -/
def lookupV : List (Vertex × Nat) → Vertex → Option Nat
  | [], _ => none
  | (w, i) :: rest, v => if v = w then some i else lookupV rest v

/-- One iteration of the inner loadModel loop: build the candidate vertex;
if it is not yet in `uniqueVertices`, append it to the vertex list and
record its index; either way append the resolved index to the index list. -/
def loadStep (a : Attrib) (s : LoadState) (idx : ObjIndex) : LoadState :=
  let vertex := mkVertex a idx
  match lookupV s.uniqueVertices vertex with
  | some i => { s with indices := s.indices ++ [i] }
  | none =>
      { vertices := s.vertices ++ [vertex]
        indices := s.indices ++ [s.vertices.length]
        uniqueVertices := s.uniqueVertices ++ [(vertex, s.vertices.length)] }

/-- The face-vertex references of all shapes, in file order (the two nested
for-loops of loadModel). -/
def refsOf : List Shape → List ObjIndex
  | [] => []
  | sh :: rest => sh.meshIndices ++ refsOf rest

/-- The process-global `vertices` and `indices` vectors. -/
structure Globals where
  vertices : List Vertex
  indices : List Nat
deriving DecidableEq, Repr

/-- Initial (zero-initialized) state of the global vectors. -/
def emptyGlobals : Globals := ⟨[], []⟩

/-- loadModel: runs the dedup loop over every face-vertex reference.
The `uniqueVertices` map is a fresh local of every call, while `vertices`
and `indices` are the process globals passed in and returned. -/
def loadModel (a : Attrib) (shapes : List Shape) (g : Globals) : Globals :=
  let final := (refsOf shapes).foldl (loadStep a) ⟨g.vertices, g.indices, []⟩
  ⟨final.vertices, final.indices⟩

/-- The (position, texcoord) attribute pair of a vertex — the discriminating
attributes of the dedup (color is constant). -/
def pairOf (v : Vertex) : Vec4 × Vec2 := (v.position, v.texcoord)

/-- The (position, texcoord) pairs referenced by the faces, in file order. -/
def refPairs (a : Attrib) (shapes : List Shape) : List (Vec4 × Vec2) :=
  (refsOf shapes).map fun r => pairOf (mkVertex a r)

/-- Scenario input: 6 distinct positions, 3 faces that all share vertex 0
(faces (0,1,2), (0,2,3), (4,5,0)), a single texcoord; 9 face-vertex
references of which only 6 are distinct attribute combinations. -/
def attrScen : Attrib :=
  ⟨[0, 0, 0, 1, 0, 0, 2, 0, 0, 3, 0, 0, 4, 0, 0, 5, 0, 0], [0, 0]⟩

/-- Scenario shapes: three triangles sharing one common vertex. -/
def shapesScen : List Shape :=
  [⟨[⟨0, 0⟩, ⟨1, 0⟩, ⟨2, 0⟩, ⟨0, 0⟩, ⟨2, 0⟩, ⟨3, 0⟩, ⟨4, 0⟩, ⟨5, 0⟩, ⟨0, 0⟩]⟩]

/-- A minimal 1-triangle mesh input (used for the re-run counterexample). -/
def attrTri : Attrib := ⟨[0, 0, 0, 1, 0, 0, 0, 1, 0], [0, 0]⟩

/-- The single triangle of `attrTri`. -/
def shapesTri : List Shape := [⟨[⟨0, 0⟩, ⟨1, 0⟩, ⟨2, 0⟩]⟩]

/-- Relates a loader run started on pre-populated global lists `w`/`j` (and a
fresh, empty `uniqueVertices` map) to the corresponding run started from
empty state: the globals are a prefix, and every index assigned by the run
is shifted by the number of pre-existing vertices. -/
def shiftState (w : List Vertex) (j : List Nat) (t : LoadState) : LoadState :=
  ⟨w ++ t.vertices,
   j ++ t.indices.map (· + w.length),
   t.uniqueVertices.map fun p => (p.1, p.2 + w.length)⟩

/-- The loop invariant tying the loader state to the list `cands` of
candidate vertices processed so far: the map sends a vertex to a sound
index and knows exactly the vertices appended so far; the vertex list is
duplicate-free and contains exactly the candidates seen; one index was
appended per candidate; and the vertex an index resolves to is the
candidate it was appended for. -/
structure Inv (cands : List Vertex) (s : LoadState) : Prop where
  lookup_sound : ∀ (v : Vertex) (i : Nat),
    lookupV s.uniqueVertices v = some i → s.vertices[i]? = some v
  lookup_none : ∀ v : Vertex, lookupV s.uniqueVertices v = none ↔ v ∉ s.vertices
  nodup : s.vertices.Nodup
  mem_iff : ∀ v : Vertex, v ∈ s.vertices ↔ v ∈ cands
  len_idx : s.indices.length = cands.length
  trace : ∀ (k i : Nat) (v : Vertex),
    s.indices[k]? = some i → cands[k]? = some v → s.vertices[i]? = some v

/-! ## Input handler state and GLFW callbacks -/

/-- GLFW action constant. -/
def GLFW_PRESS : Nat := 1

/-- GLFW action constant. -/
def GLFW_RELEASE : Nat := 0

/-- GLFW button constant. -/
def GLFW_MOUSE_BUTTON_LEFT : Nat := 0

/-- GLFW key constant. -/
def GLFW_KEY_ESCAPE : Nat := 256

/-- The process-global input/camera state: `rotation`, `zoom`, the saved
cursor reference point `cursorX`/`cursorY`, the GLFW cursor input mode
(`cursorDisabled` = true models GLFW_CURSOR_DISABLED, i.e. drag active),
and the window's should-close flag. -/
structure AppState where
  rotation : Vec2
  zoom : ℚ
  cursorX : ℚ
  cursorY : ℚ
  cursorDisabled : Bool
  shouldClose : Bool
deriving DecidableEq, Repr

/-- The globals at program start: rotation (0,0), zoom 40, zero-initialized
cursor reference, normal cursor mode, window open. -/
def initialAppState : AppState := ⟨⟨0, 0⟩, 40, 0, 0, false, false⟩

/-- key_callback: Escape pressed sets the window's should-close flag. -/
def key_callback (s : AppState) (key action : Nat) : AppState :=
  if key = GLFW_KEY_ESCAPE ∧ action = GLFW_PRESS then { s with shouldClose := true } else s

/-- mouse_button_callback: only the left button is consumed. On press the
cursor is captured (input mode DISABLED) and the current cursor position —
delivered by glfwGetCursorPos, here the `curX`/`curY` arguments — is stored
into the global reference point. Otherwise the cursor is released. -/
def mouse_button_callback (s : AppState) (button action : Nat) (curX curY : ℚ) : AppState :=
  if button ≠ GLFW_MOUSE_BUTTON_LEFT then s
  else if action = GLFW_PRESS then
    { s with cursorDisabled := true, cursorX := curX, cursorY := curY }
  else
    { s with cursorDisabled := false }

/-- cursor_position_callback: while the cursor is captured, accumulate the
motion delta into rotation scaled by 1/10, and advance the reference point;
otherwise do nothing. -/
def cursor_position_callback (s : AppState) (x y : ℚ) : AppState :=
  if s.cursorDisabled then
    { s with
      rotation := ⟨s.rotation.x + (x - s.cursorX) / 10, s.rotation.y + (y - s.cursorY) / 10⟩
      cursorX := x
      cursorY := y }
  else s

/-- scroll_callback: zoom += y/4, then clamp at 0 from below
(the horizontal delta x is ignored). -/
def scroll_callback (s : AppState) (x y : ℚ) : AppState :=
  let z := s.zoom + y / 4
  { s with zoom := if z < 0 then 0 else z }

/-! ## Frame loop -/

/-- One queued window-system event, as dispatched by glfwPollEvents. -/
inductive InputEvent
  | key (k action : Nat)
  | mouseButton (button action : Nat) (curX curY : ℚ)
  | cursorPos (x y : ℚ)
  | scroll (x y : ℚ)
deriving DecidableEq, Repr

/-- Dispatch of one event to its registered callback. -/
def processEvent (s : AppState) : InputEvent → AppState
  | .key k a => key_callback s k a
  | .mouseButton b a cx cy => mouse_button_callback s b a cx cy
  | .cursorPos x y => cursor_position_callback s x y
  | .scroll x y => scroll_callback s x y

/-- glfwPollEvents: run every pending event's callback, in order,
synchronously on the render thread. -/
def pollEvents (s : AppState) (events : List InputEvent) : AppState :=
  events.foldl processEvent s

/-- GL enum value. -/
def GL_TRIANGLES : Nat := 4

/-- GL enum value. -/
def GL_UNSIGNED_INT : Nat := 0x1405

/-- GL enum value. -/
def GL_UNIFORM_BUFFER : Nat := 0x8A11

/-- GL enum value. -/
def GL_SHADER_STORAGE_BUFFER : Nat := 0x90D2

/-- The GL commands issued by one frame-loop iteration. `writeTransform`
records the map/write/unmap of the transform buffer: the buffer afterwards
holds camera(zoom, rotation) for the recorded arguments. -/
inductive GLCmd
  | writeTransform (zoom : ℚ) (rotation : Vec2)
  | clearColor (r g b a : ℚ)
  | clearDepth (d : ℚ)
  | bindProgramPipeline (p : Nat)
  | bindVertexArray (v : Nat)
  | bindTextureUnit (unit tex : Nat)
  | bindBufferBase (target slot buf : Nat)
  | drawElementsInstanced (mode count ty instances : Nat)
  | swapBuffers
deriving DecidableEq, Repr

/-- Recognizes the draw command among the frame's GL commands. -/
def isDrawCall : GLCmd → Bool
  | .drawElementsInstanced _ _ _ _ => true
  | _ => false

/-- The handles held by the frame loop: pipeline, VAO, texture, the three
buffers, and the length of the loaded index list (the draw count). -/
structure RenderContext where
  pipeline : Nat
  vao : Nat
  tex : Nat
  vertexBuf : Nat
  elementBuf : Nat
  transformBuf : Nat
  indexCount : Nat
deriving DecidableEq, Repr

/-- The loop-local frame state: the shared input/camera globals plus the
FPS timing accumulators and window title. -/
structure FrameState where
  app : AppState
  time : ℚ
  fps : Nat
  lastFrame : ℚ
  title : String
deriving DecidableEq, Repr

/-- One iteration of the while-loop body of main: FPS accounting (the
single source-level `if (time >= 1.0f)` is split here into one `if` per
updated variable), the transform-buffer rewrite, clears, binds, the single
indexed draw, swap, and finally glfwPollEvents which dispatches the pending
input events to the callbacks. Returns the new state and the GL command
trace of the iteration. -/
def frameIteration (ctx : RenderContext) (s : FrameState) (now : ℚ)
    (events : List InputEvent) : FrameState × List GLCmd :=
  let deltaTime := now - s.lastFrame
  let time1 := s.time + deltaTime
  let fps1 := s.fps + 1
  let time2 := if 1 ≤ time1 then time1 - 1 else time1
  let fps2 := if 1 ≤ time1 then 0 else fps1
  let title2 := if 1 ≤ time1 then "FPS: " ++ toString fps1 else s.title
  let cmds : List GLCmd :=
    [.writeTransform s.app.zoom s.app.rotation,
     .clearColor (26/100) (33/100) (46/100) 1,
     .clearDepth 1,
     .bindProgramPipeline ctx.pipeline,
     .bindVertexArray ctx.vao,
     .bindTextureUnit 1 ctx.tex,
     .bindBufferBase GL_UNIFORM_BUFFER 1 ctx.transformBuf,
     .bindBufferBase GL_SHADER_STORAGE_BUFFER 0 ctx.vertexBuf,
     .drawElementsInstanced GL_TRIANGLES ctx.indexCount GL_UNSIGNED_INT 1,
     .swapBuffers]
  ({ app := pollEvents s.app events
     time := time2
     fps := fps2
     lastFrame := now
     title := title2 }, cmds)

/-! ## Texture loader format mapping -/

/-- stb_image channel-count request constant. -/
def STBI_default : Int := 0

/-- stb_image channel-count request constant. -/
def STBI_grey : Int := 1

/-- stb_image channel-count request constant. -/
def STBI_grey_alpha : Int := 2

/-- stb_image channel-count request constant. -/
def STBI_rgb : Int := 3

/-- stb_image channel-count request constant. -/
def STBI_rgb_alpha : Int := 4

/-- GL sized internal format value. -/
def GL_RGBA8 : Nat := 0x8058

/-- GL sized internal format value. -/
def GL_RGB8 : Nat := 0x8051

/-- GL sized internal format value. -/
def GL_R8 : Nat := 0x8229

/-- GL sized internal format value. -/
def GL_RG8 : Nat := 0x822B

/-- GL transfer format value. -/
def GL_RGBA : Nat := 0x1908

/-- GL transfer format value. -/
def GL_RGB : Nat := 0x1907

/-- GL transfer format value. -/
def GL_RED : Nat := 0x1903

/-- GL transfer format value. -/
def GL_RG : Nat := 0x8227

/-- The switch inside loadTexture mapping the requested channel count to
the pair (internal format, transfer format); the default case logs and
falls back to the 4-channel pair. -/
def formatOf (comp : Int) : Nat × Nat :=
  if comp = STBI_rgb_alpha then (GL_RGBA8, GL_RGBA)
  else if comp = STBI_rgb then (GL_RGB8, GL_RGB)
  else if comp = STBI_grey then (GL_R8, GL_RED)
  else if comp = STBI_grey_alpha then (GL_RG8, GL_RG)
  else (GL_RGBA8, GL_RGBA)

/-! ## Shader/pipeline build lifecycle -/

/-- The GL object-lifecycle calls recorded while createShaderProgram runs. -/
structure BuildTrace where
  attachCalls : List (Nat × Nat)
  detachCalls : List (Nat × Nat)
  shaderDeleteCalls : List Nat
  programDeleteCalls : List Nat
deriving DecidableEq, Repr

/-- The driver-reported outcome for one shader stage: its compile status
and the length of its info log. -/
structure ShaderEnv where
  compileStatus : Bool
  infoLogLength : Nat
deriving DecidableEq, Repr

/-- The build configuration and driver-reported outcomes that
createShaderProgram reacts to: whether NDEBUG was defined, the two stage
outcomes, the link status and the program info-log length. -/
structure BuildEnv where
  ndebug : Bool
  vs : ShaderEnv
  fs : ShaderEnv
  linkStatus : Bool
  programLogLength : Nat
deriving DecidableEq, Repr

/-- Handle returned by the modelled glCreateShader for the vertex stage. -/
def vsHandle : Nat := 1

/-- Handle returned by the modelled glCreateShader for the fragment stage. -/
def fsHandle : Nat := 2

/-- Handle returned by the modelled glCreateProgram. -/
def programHandle : Nat := 3

/-- Handle returned by the modelled glCreateProgramPipelines. -/
def pipelineHandle : Nat := 4

/-- checkShader: reads compile status and info-log length; when the log is
non-empty — and additionally, only when compilation failed if NDEBUG is
defined — it fetches the log, DELETES the shader, and prints. -/
def checkShader (ndebug : Bool) (e : ShaderEnv) (shader : Nat) (t : BuildTrace) : BuildTrace :=
  if 0 < e.infoLogLength ∧ (ndebug = true → e.compileStatus = false) then
    { t with shaderDeleteCalls := t.shaderDeleteCalls ++ [shader] }
  else t

/-- checkProgram: the analogous link-status check; when its branch fires it
DELETES the program. -/
def checkProgram (ndebug linkStatus : Bool) (logLen : Nat) (program : Nat)
    (t : BuildTrace) : BuildTrace :=
  if 0 < logLen ∧ (ndebug = true → linkStatus = false) then
    { t with programDeleteCalls := t.programDeleteCalls ++ [program] }
  else t

/-- createShaderProgram: compile and check both stages, create the
separable program, attach both shaders, link, check the program, then
detach and delete both shaders, create the pipeline and return
(program, pipeline) together with the recorded lifecycle trace. -/
def createShaderProgram (env : BuildEnv) : Nat × Nat × BuildTrace :=
  let t0 : BuildTrace := ⟨[], [], [], []⟩
  let t1 := checkShader env.ndebug env.vs vsHandle t0
  let t2 := checkShader env.ndebug env.fs fsHandle t1
  let t3 := { t2 with
    attachCalls := t2.attachCalls ++ [(programHandle, vsHandle), (programHandle, fsHandle)] }
  let t4 := checkProgram env.ndebug env.linkStatus env.programLogLength programHandle t3
  let t5 := { t4 with
    detachCalls := t4.detachCalls ++ [(programHandle, vsHandle), (programHandle, fsHandle)]
    shaderDeleteCalls := t4.shaderDeleteCalls ++ [vsHandle, fsHandle] }
  (programHandle, pipelineHandle, t5)

/-- A BuildEnv in which the vertex stage compiled successfully but produced
a non-empty info log, in a build without NDEBUG (a debug configuration). -/
def badBuildEnv : BuildEnv := ⟨false, ⟨true, 1⟩, ⟨true, 0⟩, true, 0⟩

/-! ## Camera

glm matrices are column-major; we store them row-major, reading
`M r c = glmMatrix[c][r]`, under which glm's product is `Matrix.mul`.
The transcendental values `tan(fovy/2)`, `cos(angle)` and `sin(angle)` are
abstracted as rational parameters: the program applies them to fixed or
caller-supplied angles and the claims only concern how the resulting
matrices compose. -/

/-- 4x4 matrix over exact rationals. -/
abbrev Mat4 := Matrix (Fin 4) (Fin 4) ℚ

/-- glm::perspectiveRH_ZO(fovy, aspect, zNear, zFar) (selected by
GLM_FORCE_DEPTH_ZERO_TO_ONE and the default right-handed convention),
with `t = tan(fovy/2)` passed in as a parameter. -/
def glmPerspectiveRH_ZO (t aspect zNear zFar : ℚ) : Mat4 :=
  Matrix.of fun r c =>
    if r = 0 ∧ c = 0 then 1 / (aspect * t)
    else if r = 1 ∧ c = 1 then 1 / t
    else if r = 2 ∧ c = 2 then zFar / (zNear - zFar)
    else if r = 3 ∧ c = 2 then -1
    else if r = 2 ∧ c = 3 then -(zFar * zNear) / (zFar - zNear)
    else 0

/-- glm::translate(m, v): copy of m with last column
m[0]*v.x + m[1]*v.y + m[2]*v.z + m[3]. -/
def glmTranslate (m : Mat4) (v : Fin 3 → ℚ) : Mat4 :=
  Matrix.of fun r c =>
    if c = 3 then m r 0 * v 0 + m r 1 * v 1 + m r 2 * v 2 + m r 3 else m r c

/-- glm::rotate(m, angle, axis) with `c = cos(angle)`, `s = sin(angle)` and
the axis given pre-normalized (the program only passes the exact unit axes
(1,0,0) and (0,1,0), on which glm's normalize is the identity). `rot i j`
is glm's Rotate[i][j] (column i, row j); the result's first three columns
are m[0]*Rotate[i][0] + m[1]*Rotate[i][1] + m[2]*Rotate[i][2] and the last
column is m[3]. -/
def glmRotate (m : Mat4) (c s : ℚ) (axis : Fin 3 → ℚ) : Mat4 :=
  let temp : Fin 3 → ℚ := fun i => (1 - c) * axis i
  let rot : Fin 3 → Fin 3 → ℚ := fun i j =>
    ![![c + temp 0 * axis 0, temp 0 * axis 1 + s * axis 2, temp 0 * axis 2 - s * axis 1],
      ![temp 1 * axis 0 - s * axis 2, c + temp 1 * axis 1, temp 1 * axis 2 + s * axis 0],
      ![temp 2 * axis 0 + s * axis 1, temp 2 * axis 1 - s * axis 0, c + temp 2 * axis 2]] i j
  Matrix.of fun r i =>
    if i = 0 then m r 0 * rot 0 0 + m r 1 * rot 0 1 + m r 2 * rot 0 2
    else if i = 1 then m r 0 * rot 1 0 + m r 1 * rot 1 1 + m r 2 * rot 1 2
    else if i = 2 then m r 0 * rot 2 0 + m r 1 * rot 2 1 + m r 2 * rot 2 2
    else m r 3

/-- camera(zoom, rotate): perspective(45 deg, 1920/1080, 0.1, 100), a view
built by translating by (0,0,-zoom), then rotating about the X axis by
rotate.y degrees, then about the Y axis by rotate.x degrees, an identity
model matrix, and the product Projection * View * Model. Parameters:
`t = tan(radians(45)/2)`, `cY/sY = cos/sin(radians(rotate.y))`,
`cX/sX = cos/sin(radians(rotate.x))`. -/
def camera (t zoom cY sY cX sX : ℚ) : Mat4 :=
  let aspect : ℚ := 1920 / 1080
  let Projection := glmPerspectiveRH_ZO t aspect (1/10) 100
  let View0 := glmTranslate 1 ![0, 0, -zoom]
  let View1 := glmRotate View0 cY sY ![1, 0, 0]
  let View2 := glmRotate View1 cX sX ![0, 1, 0]
  let Model : Mat4 := 1
  Projection * View2 * Model

/-- The standard homogeneous translation matrix (spec side: "Translate"). -/
def translateMat (x y z : ℚ) : Mat4 :=
  Matrix.of fun r c =>
    if c = 3 then (if r = 0 then x else if r = 1 then y else if r = 2 then z else 1)
    else if r = c then 1 else 0

/-- The standard rotation matrix about the X axis with cosine `c` and
sine `s` (spec side: "RotateX"). -/
def rotateXMat (c s : ℚ) : Mat4 :=
  Matrix.of fun r i =>
    if r = 0 ∧ i = 0 then 1
    else if r = 1 ∧ i = 1 then c
    else if r = 1 ∧ i = 2 then -s
    else if r = 2 ∧ i = 1 then s
    else if r = 2 ∧ i = 2 then c
    else if r = 3 ∧ i = 3 then 1
    else 0

/-- The standard rotation matrix about the Y axis with cosine `c` and
sine `s` (spec side: "RotateY"). -/
def rotateYMat (c s : ℚ) : Mat4 :=
  Matrix.of fun r i =>
    if r = 0 ∧ i = 0 then c
    else if r = 0 ∧ i = 2 then s
    else if r = 1 ∧ i = 1 then 1
    else if r = 2 ∧ i = 0 then -s
    else if r = 2 ∧ i = 2 then c
    else if r = 3 ∧ i = 3 then 1
    else 0

/-! ## Concrete example states used by the witnesses -/

/-- An AppState with drag mode active (cursor captured) and a stale
reference point. -/
def dragStateEx : AppState := ⟨⟨2, 3⟩, 40, 1, 4, true, false⟩

/-- An AppState with drag mode inactive. -/
def freeStateEx : AppState := ⟨⟨2, 3⟩, 40, 1, 4, false, false⟩

/-- A RenderContext for a loaded 1-triangle mesh (index count 3). -/
def ctxEx : RenderContext := ⟨1, 2, 3, 4, 5, 6, 3⟩

/-- The frame state at the start of the first iteration: the initial
globals, zeroed timing accumulators and the initial window title. -/
def frameStateEx : FrameState := ⟨initialAppState, 0, 0, 0, "Rabbit"⟩

/-- A BuildEnv in which both compiles and the link succeed with empty
info logs. -/
def okBuildEnv : BuildEnv := ⟨true, ⟨true, 0⟩, ⟨true, 0⟩, true, 0⟩

end Bunny


/-! ## Helper lemmas -/

namespace Bunny

theorem lookupV_append_some {m₁ : List (Vertex × Nat)} (m₂ : List (Vertex × Nat)) {v : Vertex}
    {i : Nat} (h : lookupV m₁ v = some i) : lookupV (m₁ ++ m₂) v = some i := by
  induction m₁ with
  | nil => simp [lookupV] at h
  | cons p rest ih =>
      obtain ⟨w, n⟩ := p
      by_cases hv : v = w
      · simpa [lookupV, hv] using h
      · simp only [lookupV, if_neg hv, List.cons_append] at h ⊢
        exact ih h

theorem lookupV_append_none {m₁ : List (Vertex × Nat)} (m₂ : List (Vertex × Nat)) {v : Vertex}
    (h : lookupV m₁ v = none) : lookupV (m₁ ++ m₂) v = lookupV m₂ v := by
  induction m₁ with
  | nil => rfl
  | cons p rest ih =>
      obtain ⟨w, n⟩ := p
      by_cases hv : v = w
      · simp [lookupV, hv] at h
      · simp only [lookupV, if_neg hv, List.cons_append] at h ⊢
        exact ih h

theorem lookupV_shift (m : List (Vertex × Nat)) (v : Vertex) (n : Nat) :
    lookupV (m.map fun p => (p.1, p.2 + n)) v = (lookupV m v).map (· + n) := by
  induction m with
  | nil => rfl
  | cons p rest ih =>
      obtain ⟨w, i⟩ := p
      by_cases hv : v = w
      · simp [lookupV, hv]
      · simp [lookupV, hv, ih]

theorem loadStep_some {a : Attrib} {s : LoadState} {idx : ObjIndex} {i : Nat}
    (h : lookupV s.uniqueVertices (mkVertex a idx) = some i) :
    loadStep a s idx = { s with indices := s.indices ++ [i] } := by
  simp [loadStep, h]

theorem loadStep_none {a : Attrib} {s : LoadState} {idx : ObjIndex}
    (h : lookupV s.uniqueVertices (mkVertex a idx) = none) :
    loadStep a s idx =
      ⟨s.vertices ++ [mkVertex a idx], s.indices ++ [s.vertices.length],
        s.uniqueVertices ++ [(mkVertex a idx, s.vertices.length)]⟩ := by
  simp [loadStep, h]

theorem loadStep_inv {a : Attrib} {cands : List Vertex} {s : LoadState} {r : ObjIndex}
    (h : Inv cands s) : Inv (cands ++ [mkVertex a r]) (loadStep a s r) := by
  cases hl : lookupV s.uniqueVertices (mkVertex a r) with
  | some i =>
      rw [loadStep_some hl]
      have hvi : s.vertices[i]? = some (mkVertex a r) := h.lookup_sound _ _ hl
      have hmem : mkVertex a r ∈ s.vertices := List.mem_iff_getElem?.mpr ⟨i, hvi⟩
      refine ⟨h.lookup_sound, h.lookup_none, h.nodup, ?_, ?_, ?_⟩
      · intro v
        simp only [List.mem_append, List.mem_singleton]
        constructor
        · intro hv
          exact Or.inl ((h.mem_iff v).mp hv)
        · rintro (hv | rfl)
          · exact (h.mem_iff v).mpr hv
          · exact hmem
      · simp [h.len_idx]
      · intro k j v hkj hkv
        by_cases hk : k < s.indices.length
        · rw [List.getElem?_append_left hk] at hkj
          rw [List.getElem?_append_left (h.len_idx ▸ hk)] at hkv
          exact h.trace k j v hkj hkv
        · push_neg at hk
          rw [List.getElem?_append_right hk] at hkj
          rw [List.getElem?_append_right (h.len_idx ▸ hk)] at hkv
          rw [h.len_idx] at hkj
          cases hd : k - cands.length with
          | zero =>
              rw [hd] at hkj hkv
              simp only [List.getElem?_cons_zero, Option.some.injEq] at hkj hkv
              subst hkj; subst hkv
              exact hvi
          | succ d =>
              rw [hd] at hkj
              simp at hkj
  | none =>
      rw [loadStep_none hl]
      have hnot : mkVertex a r ∉ s.vertices := (h.lookup_none _).mp hl
      refine ⟨?_, ?_, ?_, ?_, ?_, ?_⟩
      · intro v i hlk
        cases hold : lookupV s.uniqueVertices v with
        | some n =>
            rw [lookupV_append_some _ hold] at hlk
            cases hlk
            have hv := h.lookup_sound v i hold
            have hi : i < s.vertices.length := by
              obtain ⟨hlt, -⟩ := List.getElem?_eq_some.mp hv
              exact hlt
            rw [List.getElem?_append_left hi]
            exact hv
        | none =>
            rw [lookupV_append_none _ hold] at hlk
            by_cases hv : v = mkVertex a r
            · simp only [lookupV, if_pos hv, Option.some.injEq] at hlk
              subst hlk; subst hv
              exact List.getElem?_concat_length _ _
            · simp [lookupV, hv] at hlk
      · intro v
        cases hold : lookupV s.uniqueVertices v with
        | some n =>
            have := lookupV_append_some [(mkVertex a r, s.vertices.length)] hold
            have hv := h.lookup_sound v n hold
            have hmem : v ∈ s.vertices := List.mem_iff_getElem?.mpr ⟨n, hv⟩
            simp [this, List.mem_append, hmem]
        | none =>
            rw [lookupV_append_none _ hold]
            have hv : v ∉ s.vertices := (h.lookup_none v).mp hold
            by_cases hveq : v = mkVertex a r
            · simp [lookupV, hveq]
            · simp [lookupV, hveq, List.mem_append, hv]
      · rw [List.nodup_append]
        refine ⟨h.nodup, List.nodup_singleton _, ?_⟩
        intro x hx hx1
        rw [List.mem_singleton] at hx1
        subst hx1
        exact hnot hx
      · intro v
        simp [List.mem_append, h.mem_iff]
      · simp [h.len_idx]
      · intro k j v hkj hkv
        by_cases hk : k < s.indices.length
        · rw [List.getElem?_append_left hk] at hkj
          rw [List.getElem?_append_left (h.len_idx ▸ hk)] at hkv
          have hv := h.trace k j v hkj hkv
          have hj : j < s.vertices.length := (List.getElem?_eq_some.mp hv).1
          rw [List.getElem?_append_left hj]
          exact hv
        · push_neg at hk
          rw [List.getElem?_append_right hk] at hkj
          rw [List.getElem?_append_right (h.len_idx ▸ hk)] at hkv
          rw [h.len_idx] at hkj
          cases hd : k - cands.length with
          | zero =>
              rw [hd] at hkj hkv
              simp only [List.getElem?_cons_zero, Option.some.injEq] at hkj hkv
              subst hkj; subst hkv
              exact List.getElem?_concat_length _ _
          | succ d =>
              rw [hd] at hkj
              simp at hkj

theorem loadRun_inv (a : Attrib) (refs : List ObjIndex) :
    Inv (refs.map (mkVertex a)) (refs.foldl (loadStep a) ⟨[], [], []⟩) := by
  induction refs using List.reverseRecOn with
  | nil =>
      exact ⟨fun v i hv => by simp [lookupV] at hv, fun v => by simp [lookupV],
        List.nodup_nil, fun v => by simp, rfl, fun k i v hv => by simp at hv⟩
  | append_singleton rs r ih =>
      rw [List.foldl_append, List.map_append]
      simp only [List.foldl_cons, List.foldl_nil, List.map_cons, List.map_nil]
      exact loadStep_inv ih

theorem loadStep_shift (a : Attrib) (w : List Vertex) (j : List Nat) (t : LoadState)
    (r : ObjIndex) :
    loadStep a (shiftState w j t) r = shiftState w j (loadStep a t r) := by
  cases hl : lookupV t.uniqueVertices (mkVertex a r) with
  | some i =>
      have hs : lookupV (shiftState w j t).uniqueVertices (mkVertex a r)
          = some (i + w.length) := by
        simp [shiftState, lookupV_shift, hl]
      rw [loadStep_some hs, loadStep_some hl]
      simp [shiftState, List.map_append, List.append_assoc]
  | none =>
      have hs : lookupV (shiftState w j t).uniqueVertices (mkVertex a r) = none := by
        simp [shiftState, lookupV_shift, hl]
      rw [loadStep_none hs, loadStep_none hl]
      simp [shiftState, List.map_append, List.append_assoc, List.length_append, Nat.add_comm]

theorem loadRun_shift (a : Attrib) (refs : List ObjIndex) (w : List Vertex) (j : List Nat)
    (t : LoadState) :
    refs.foldl (loadStep a) (shiftState w j t) = shiftState w j (refs.foldl (loadStep a) t) := by
  induction refs generalizing t with
  | nil => rfl
  | cons r rest ih =>
      simp only [List.foldl_cons, loadStep_shift]
      exact ih _

end Bunny

/-! ## Camera helper lemmas -/

namespace Bunny

theorem glmTranslate_eq (m : Mat4) (v : Fin 3 → ℚ) :
    glmTranslate m v = m * translateMat (v 0) (v 1) (v 2) := by
  ext r c
  fin_cases c <;>
    simp [glmTranslate, translateMat, Matrix.mul_apply, Fin.sum_univ_four]

theorem glmRotate_X (m : Mat4) (c s : ℚ) :
    glmRotate m c s ![1, 0, 0] = m * rotateXMat c s := by
  ext r i
  fin_cases i <;>
    simp [glmRotate, rotateXMat, Matrix.mul_apply, Fin.sum_univ_four,
      Matrix.vecHead, Matrix.vecTail]

theorem glmRotate_Y (m : Mat4) (c s : ℚ) :
    glmRotate m c s ![0, 1, 0] = m * rotateYMat c s := by
  ext r i
  fin_cases i <;>
    simp [glmRotate, rotateYMat, Matrix.mul_apply, Fin.sum_univ_four,
      Matrix.vecHead, Matrix.vecTail]

theorem rotateXMat_one : rotateXMat 1 0 = 1 := by
  ext r i
  fin_cases r <;> fin_cases i <;> simp [rotateXMat, Matrix.one_apply]

theorem rotateYMat_one : rotateYMat 1 0 = 1 := by
  ext r i
  fin_cases r <;> fin_cases i <;> simp [rotateYMat, Matrix.one_apply]

theorem camera_eq_product (t z cY sY cX sX : ℚ) :
    camera t z cY sY cX sX =
      glmPerspectiveRH_ZO t (1920 / 1080) (1 / 10) 100 * translateMat 0 0 (-z) *
        rotateXMat cY sY * rotateYMat cX sX * 1 := by
  simp only [camera, glmRotate_Y, glmRotate_X, glmTranslate_eq, Matrix.cons_val_zero,
    Matrix.cons_val_one, Matrix.head_cons, Matrix.cons_val_two, Matrix.vecHead, Matrix.vecTail,
    Function.comp, Matrix.cons_val_succ, one_mul, mul_one, mul_assoc]

/-! ## Loader bridging lemmas -/

theorem loadModel_vertices (a : Attrib) (shapes : List Shape) :
    (loadModel a shapes emptyGlobals).vertices
      = ((refsOf shapes).foldl (loadStep a) ⟨[], [], []⟩).vertices := rfl

theorem loadModel_indices (a : Attrib) (shapes : List Shape) :
    (loadModel a shapes emptyGlobals).indices
      = ((refsOf shapes).foldl (loadStep a) ⟨[], [], []⟩).indices := rfl

theorem refPairs_eq (a : Attrib) (shapes : List Shape) :
    refPairs a shapes = ((refsOf shapes).map (mkVertex a)).map pairOf := by
  simp [refPairs, List.map_map, Function.comp]

theorem mkVertex_color (a : Attrib) (r : ObjIndex) : (mkVertex a r).color = ⟨1, 1, 1, 1⟩ := rfl

theorem cands_card_eq_pairs_card (a : Attrib) (shapes : List Shape) :
    ((refsOf shapes).map (mkVertex a)).toFinset.card = (refPairs a shapes).toFinset.card := by
  rw [refPairs_eq]
  have himg : (((refsOf shapes).map (mkVertex a)).map pairOf).toFinset
      = ((refsOf shapes).map (mkVertex a)).toFinset.image pairOf := by
    ext p
    simp
  rw [himg]
  symm
  apply Finset.card_image_of_injOn
  intro u hu w hw hpw
  rw [Finset.mem_coe, List.mem_toFinset] at hu hw
  obtain ⟨ru, -, rfl⟩ := List.mem_map.mp hu
  obtain ⟨rw', -, rfl⟩ := List.mem_map.mp hw
  have h1 : (mkVertex a ru).position = (mkVertex a rw').position := congrArg Prod.fst hpw
  have h2 : (mkVertex a ru).texcoord = (mkVertex a rw').texcoord := congrArg Prod.snd hpw
  cases hu' : mkVertex a ru
  cases hw' : mkVertex a rw'
  rw [hu', hw'] at h1 h2
  have hc1 := mkVertex_color a ru
  have hc2 := mkVertex_color a rw'
  rw [hu'] at hc1
  rw [hw'] at hc2
  simp_all

/-! ## Other helper lemmas -/

theorem scroll_zoom_nonneg (s : AppState) (x y : ℚ) : 0 ≤ (scroll_callback s x y).zoom := by
  simp only [scroll_callback]
  split_ifs with h
  · norm_num
  · linarith

theorem scrollFold_nonneg (l : List (ℚ × ℚ)) (s : AppState) (h : 0 ≤ s.zoom) :
    0 ≤ (l.foldl (fun s p => scroll_callback s p.1 p.2) s).zoom := by
  induction l generalizing s with
  | nil => exact h
  | cons p rest ih =>
      simp only [List.foldl_cons]
      exact ih _ (scroll_zoom_nonneg s p.1 p.2)

/-! ## Claim theorems -/

/-- Claim C1: for every mesh input, loadModel (run on the empty globals, as
the program does) produces a vertex list whose length equals the number of
distinct (position, texcoord) attribute combinations referenced by faces,
an index list whose length equals the total number of face-vertex
references, and every index value strictly below the vertex-list length;
and the 3-faces-sharing-corners scenario (9 references, 6 distinct
combinations) yields exactly 6 vertices and 9 indices. -/
theorem claim_C1 :
    (∀ (a : Attrib) (shapes : List Shape),
      (loadModel a shapes emptyGlobals).vertices.length = (refPairs a shapes).toFinset.card ∧
      (loadModel a shapes emptyGlobals).indices.length = (refsOf shapes).length ∧
      ∀ i ∈ (loadModel a shapes emptyGlobals).indices,
        i < (loadModel a shapes emptyGlobals).vertices.length)
    ∧ (loadModel attrScen shapesScen emptyGlobals).vertices.length = 6
    ∧ (loadModel attrScen shapesScen emptyGlobals).indices.length = 9 := by
  refine ⟨fun a shapes => ?_, by decide, by decide⟩
  have I := loadRun_inv a (refsOf shapes)
  rw [loadModel_vertices, loadModel_indices]
  refine ⟨?_, ?_, ?_⟩
  · have h1 : ((refsOf shapes).foldl (loadStep a) ⟨[], [], []⟩).vertices.toFinset
        = ((refsOf shapes).map (mkVertex a)).toFinset := by
      ext v
      simp [List.mem_toFinset, I.mem_iff v]
    calc ((refsOf shapes).foldl (loadStep a) ⟨[], [], []⟩).vertices.length
        = ((refsOf shapes).foldl (loadStep a) ⟨[], [], []⟩).vertices.toFinset.card :=
          (List.toFinset_card_of_nodup I.nodup).symm
      _ = ((refsOf shapes).map (mkVertex a)).toFinset.card := by rw [h1]
      _ = (refPairs a shapes).toFinset.card := cands_card_eq_pairs_card a shapes
  · rw [I.len_idx, List.length_map]
  · intro i hi
    obtain ⟨k, hk⟩ := List.mem_iff_getElem?.mp hi
    have hki : k < ((refsOf shapes).foldl (loadStep a) ⟨[], [], []⟩).indices.length :=
      (List.getElem?_eq_some.mp hk).1
    have hkc : k < ((refsOf shapes).map (mkVertex a)).length := I.len_idx ▸ hki
    have hv := List.getElem?_eq_getElem hkc
    have ht := I.trace k i _ hk hv
    exact (List.getElem?_eq_some.mp ht).1

/-- Claim C1 witness: a concrete index of the scenario's produced index
list, in bounds of the produced vertex list. -/
theorem claim_C1_witness :
    0 ∈ (loadModel attrScen shapesScen emptyGlobals).indices ∧
    0 < (loadModel attrScen shapesScen emptyGlobals).vertices.length :=
  ⟨by decide, (claim_C1.1 attrScen shapesScen).2.2 0 (by decide)⟩

/-- Claim C2: for every zoom and rotation (with the tangent of the half
field of view and the rotation cosines/sines abstracted as parameters),
camera equals Perspective(45 deg, 1920/1080, 0.1, 100, depth range [0,1])
times Translate(0,0,-zoom) times RotateX(rotate.y) times RotateY(rotate.x)
times Identity; consequently at rotation (0,0) — where the cosines are 1
and the sines 0 — it reduces to Perspective times Translate(0,0,-zoom). -/
theorem claim_C2 : ∀ t z cY sY cX sX : ℚ,
    camera t z cY sY cX sX =
      glmPerspectiveRH_ZO t (1920 / 1080) (1 / 10) 100 * translateMat 0 0 (-z) *
        rotateXMat cY sY * rotateYMat cX sX * 1
    ∧ camera t z 1 0 1 0 =
      glmPerspectiveRH_ZO t (1920 / 1080) (1 / 10) 100 * translateMat 0 0 (-z) := by
  intro t z cY sY cX sX
  refine ⟨camera_eq_product t z cY sY cX sX, ?_⟩
  rw [camera_eq_product, rotateXMat_one, rotateYMat_one, mul_one, mul_one, mul_one]

/-- Claim C3: every scroll event replaces zoom by max(0, zoom + y/4), and
starting from the initial state (zoom 40) no finite sequence of scroll
events — however negative — ever makes zoom negative. -/
theorem claim_C3 :
    (∀ (s : AppState) (x y : ℚ), (scroll_callback s x y).zoom = max 0 (s.zoom + y / 4))
    ∧ ∀ l : List (ℚ × ℚ),
        0 ≤ (l.foldl (fun s p => scroll_callback s p.1 p.2) initialAppState).zoom := by
  constructor
  · intro s x y
    simp only [scroll_callback]
    split_ifs with h
    · exact (max_eq_left (le_of_lt h)).symm
    · exact (max_eq_right (not_lt.mp h)).symm
  · intro l
    exact scrollFold_nonneg l initialAppState (by norm_num [initialAppState])

/-- Claim C4 counterexample: on a 1-triangle mesh, the lists observable
after the second loader run are not equal to those after the first run
(they have doubled in length), so re-running the loader does not yield
identical lists. -/
theorem claim_C4_counterexample :
    (loadModel attrTri shapesTri (loadModel attrTri shapesTri emptyGlobals)).vertices
      ≠ (loadModel attrTri shapesTri emptyGlobals).vertices
    ∧ (loadModel attrTri shapesTri (loadModel attrTri shapesTri emptyGlobals)).indices
      ≠ (loadModel attrTri shapesTri emptyGlobals).indices := by
  constructor <;> decide

/-- Claim C4 (amended): the loader is deterministic as a function of its
input and of the initial global lists, but it appends into the process
globals without clearing them, so running it a second time on the same
file appends a duplicate copy: afterwards the vertex list is the first
run's list concatenated with itself, and the index list is the first run's
list followed by the same indices shifted by the first run's vertex
count. -/
theorem claim_C4 : ∀ (a : Attrib) (shapes : List Shape),
    (loadModel a shapes (loadModel a shapes emptyGlobals)).vertices
      = (loadModel a shapes emptyGlobals).vertices
        ++ (loadModel a shapes emptyGlobals).vertices
    ∧ (loadModel a shapes (loadModel a shapes emptyGlobals)).indices
      = (loadModel a shapes emptyGlobals).indices
        ++ (loadModel a shapes emptyGlobals).indices.map
            (· + (loadModel a shapes emptyGlobals).vertices.length) := by
  intro a shapes
  simp only [loadModel, emptyGlobals]
  have h0 : (⟨((refsOf shapes).foldl (loadStep a) ⟨[], [], []⟩).vertices,
        ((refsOf shapes).foldl (loadStep a) ⟨[], [], []⟩).indices, []⟩ : LoadState)
      = shiftState ((refsOf shapes).foldl (loadStep a) ⟨[], [], []⟩).vertices
          ((refsOf shapes).foldl (loadStep a) ⟨[], [], []⟩).indices ⟨[], [], []⟩ := by
    simp [shiftState]
  rw [h0, loadRun_shift]
  constructor <;> simp [shiftState]

/-- Claim C5: the channel-count-to-device-format switch is total and
deterministic: 1 maps to (R8, RED), 2 to (RG8, RG), 3 to (RGB8, RGB),
4 to (RGBA8, RGBA), and every other input maps to the same pair as 4. -/
theorem claim_C5 :
    formatOf 1 = (GL_R8, GL_RED)
    ∧ formatOf 2 = (GL_RG8, GL_RG)
    ∧ formatOf 3 = (GL_RGB8, GL_RGB)
    ∧ formatOf 4 = (GL_RGBA8, GL_RGBA)
    ∧ ∀ c : Int, c ≠ 1 → c ≠ 2 → c ≠ 3 → c ≠ 4 → formatOf c = formatOf 4 := by
  refine ⟨by decide, by decide, by decide, by decide, ?_⟩
  intro c h1 h2 h3 h4
  simp [formatOf, STBI_grey, STBI_grey_alpha, STBI_rgb, STBI_rgb_alpha, h1, h2, h3, h4]

/-- Claim C5 witness: the default case evaluated at the concrete channel
count 0 agrees with the 4-channel mapping. -/
theorem claim_C5_witness : formatOf 0 = formatOf 4 :=
  claim_C5.2.2.2.2 0 (by decide) (by decide) (by decide) (by decide)

/-- Claim C6: while drag mode is active a cursor event at (x, y) adds
(x - previousX)/10 and (y - previousY)/10 to the rotation components;
while drag mode is inactive a cursor event leaves rotation unchanged. -/
theorem claim_C6 :
    (∀ (s : AppState) (x y : ℚ), s.cursorDisabled = true →
      (cursor_position_callback s x y).rotation.x = s.rotation.x + (x - s.cursorX) / 10
      ∧ (cursor_position_callback s x y).rotation.y = s.rotation.y + (y - s.cursorY) / 10)
    ∧ ∀ (s : AppState) (x y : ℚ), s.cursorDisabled = false →
        (cursor_position_callback s x y).rotation = s.rotation := by
  constructor
  · intro s x y h
    constructor <;> simp [cursor_position_callback, h]
  · intro s x y h
    simp [cursor_position_callback, h]

/-- Claim C6 witness: both cases of claim C6 evaluated at concrete states
and cursor positions. -/
theorem claim_C6_witness :
    ((cursor_position_callback dragStateEx 5 7).rotation.x
        = dragStateEx.rotation.x + (5 - dragStateEx.cursorX) / 10
      ∧ (cursor_position_callback dragStateEx 5 7).rotation.y
        = dragStateEx.rotation.y + (7 - dragStateEx.cursorY) / 10)
    ∧ (cursor_position_callback freeStateEx 5 7).rotation = freeStateEx.rotation :=
  ⟨claim_C6.1 dragStateEx 5 7 rfl, claim_C6.2 freeStateEx 5 7 rfl⟩

/-- Claim C7: every frame-loop iteration issues exactly one indexed draw
call — GL_TRIANGLES with the loaded index count and instance count 1; the
shared input state after the iteration is exactly the result of running
the pending input callbacks (so the render step itself never mutates zoom
or rotation); and in the scenario zoom = 40, rotation = (0,0), 1-triangle
mesh and no pending events, the single draw has index count 3 and zoom and
rotation are unchanged. -/
theorem claim_C7 :
    (∀ (ctx : RenderContext) (s : FrameState) (now : ℚ) (events : List InputEvent),
      (frameIteration ctx s now events).2.filter isDrawCall
        = [GLCmd.drawElementsInstanced GL_TRIANGLES ctx.indexCount GL_UNSIGNED_INT 1])
    ∧ (∀ (ctx : RenderContext) (s : FrameState) (now : ℚ) (events : List InputEvent),
      (frameIteration ctx s now events).1.app = pollEvents s.app events)
    ∧ ∀ (ctx : RenderContext) (s : FrameState) (now : ℚ),
        s.app.zoom = 40 → s.app.rotation = ⟨0, 0⟩ → ctx.indexCount = 3 →
        (frameIteration ctx s now []).2.filter isDrawCall
          = [GLCmd.drawElementsInstanced GL_TRIANGLES 3 GL_UNSIGNED_INT 1]
        ∧ (frameIteration ctx s now []).1.app.zoom = 40
        ∧ (frameIteration ctx s now []).1.app.rotation = ⟨0, 0⟩ := by
  refine ⟨fun ctx s now events => rfl, fun ctx s now events => rfl, ?_⟩
  intro ctx s now hz hr hc
  refine ⟨?_, hz, hr⟩
  rw [← hc]
  exact rfl

/-- Claim C7 witness: the scenario case of claim C7 evaluated on a
concrete render context and initial frame state with no pending events. -/
theorem claim_C7_witness :
    (frameIteration ctxEx frameStateEx (1 / 2) []).2.filter isDrawCall
      = [GLCmd.drawElementsInstanced GL_TRIANGLES 3 GL_UNSIGNED_INT 1]
    ∧ (frameIteration ctxEx frameStateEx (1 / 2) []).1.app.zoom = 40
    ∧ (frameIteration ctxEx frameStateEx (1 / 2) []).1.app.rotation = ⟨0, 0⟩ :=
  claim_C7.2.2 ctxEx frameStateEx (1 / 2) rfl rfl rfl

/-- Claim C8 counterexample: in a debug build (NDEBUG not defined) in which
the vertex stage compiles successfully but its info log is non-empty,
checkShader already deletes the vertex shader, and createShaderProgram
deletes it again after linking — so it is NOT deleted exactly once
regardless of the info logs, refuting the claim as stated. -/
theorem claim_C8_counterexample :
    ¬((createShaderProgram badBuildEnv).2.2.shaderDeleteCalls.count vsHandle = 1
      ∧ (createShaderProgram badBuildEnv).2.2.shaderDeleteCalls.count fsHandle = 1
      ∧ (createShaderProgram badBuildEnv).2.2.programDeleteCalls = []) := by
  decide

/-- Claim C8 (amended): provided no status-check branch fires — for each
stage and for the link, the info log is empty, or (in NDEBUG builds) the
corresponding status is success — the build detaches each of the two stage
shaders exactly once, deletes each exactly once, never deletes the program,
and returns the program handle; when a branch does fire, the affected
shader is deleted twice (once inside checkShader and once after linking)
and checkProgram may delete the program before it is returned. -/
theorem claim_C8 : ∀ env : BuildEnv,
    ¬(0 < env.vs.infoLogLength ∧ (env.ndebug = true → env.vs.compileStatus = false)) →
    ¬(0 < env.fs.infoLogLength ∧ (env.ndebug = true → env.fs.compileStatus = false)) →
    ¬(0 < env.programLogLength ∧ (env.ndebug = true → env.linkStatus = false)) →
    (createShaderProgram env).2.2.detachCalls
        = [(programHandle, vsHandle), (programHandle, fsHandle)]
    ∧ (createShaderProgram env).2.2.shaderDeleteCalls.count vsHandle = 1
    ∧ (createShaderProgram env).2.2.shaderDeleteCalls.count fsHandle = 1
    ∧ (createShaderProgram env).2.2.programDeleteCalls = []
    ∧ (createShaderProgram env).1 = programHandle := by
  intro env hv hf hp
  simp only [createShaderProgram, checkShader, checkProgram, if_neg hv, if_neg hf, if_neg hp]
  decide

/-- Claim C8 witness: the amended claim evaluated at a build environment
in which both compiles and the link succeed with empty info logs. -/
theorem claim_C8_witness :
    (createShaderProgram okBuildEnv).2.2.detachCalls
        = [(programHandle, vsHandle), (programHandle, fsHandle)]
    ∧ (createShaderProgram okBuildEnv).2.2.shaderDeleteCalls.count vsHandle = 1
    ∧ (createShaderProgram okBuildEnv).2.2.shaderDeleteCalls.count fsHandle = 1
    ∧ (createShaderProgram okBuildEnv).2.2.programDeleteCalls = []
    ∧ (createShaderProgram okBuildEnv).1 = programHandle :=
  claim_C8 okBuildEnv (by decide) (by decide) (by decide)

/-- Claim C9: the dedup is lossless — resolving each produced index through
the produced vertex list gives back exactly the candidate Vertex (position
with w = 1.0, color (1,1,1,1), texcoord) built for the face-vertex
reference at the same position in file order; out-of-range positions agree
as well (both sides are none), so the index list expanded through the
vertex list reconstructs the original face-vertex stream. -/
theorem claim_C9 : ∀ (a : Attrib) (shapes : List Shape) (k : Nat),
    ((loadModel a shapes emptyGlobals).indices[k]?.bind
        fun i => (loadModel a shapes emptyGlobals).vertices[i]?)
      = ((refsOf shapes).map (mkVertex a))[k]? := by
  intro a shapes k
  have I := loadRun_inv a (refsOf shapes)
  rw [loadModel_vertices, loadModel_indices]
  cases hk : ((refsOf shapes).foldl (loadStep a) ⟨[], [], []⟩).indices[k]? with
  | none =>
      have hlen := List.getElem?_eq_none_iff.mp hk
      have hc : ((refsOf shapes).map (mkVertex a)).length ≤ k := I.len_idx ▸ hlen
      rw [List.getElem?_eq_none_iff.mpr hc]
      rfl
  | some i =>
      have hki : k < ((refsOf shapes).foldl (loadStep a) ⟨[], [], []⟩).indices.length :=
        (List.getElem?_eq_some.mp hk).1
      have hkc : k < ((refsOf shapes).map (mkVertex a)).length := I.len_idx ▸ hki
      have hv := List.getElem?_eq_getElem hkc
      have ht := I.trace k i _ hk hv
      rw [hv]
      simpa using ht

/-- Claim C10: pressing the left mouse button records the cursor position
current at press time as the reference point without changing rotation,
and the first motion event after the press contributes a rotation delta
measured from the press location — independent of the stale reference
point from any earlier drag, so re-engaging drag never produces a jump. -/
theorem claim_C10 : ∀ (s : AppState) (pressX pressY x y : ℚ),
    (mouse_button_callback s GLFW_MOUSE_BUTTON_LEFT GLFW_PRESS pressX pressY).rotation
      = s.rotation
    ∧ (mouse_button_callback s GLFW_MOUSE_BUTTON_LEFT GLFW_PRESS pressX pressY).cursorX
      = pressX
    ∧ (mouse_button_callback s GLFW_MOUSE_BUTTON_LEFT GLFW_PRESS pressX pressY).cursorY
      = pressY
    ∧ (mouse_button_callback s GLFW_MOUSE_BUTTON_LEFT GLFW_PRESS pressX pressY).cursorDisabled
      = true
    ∧ (cursor_position_callback
        (mouse_button_callback s GLFW_MOUSE_BUTTON_LEFT GLFW_PRESS pressX pressY) x y).rotation.x
      = s.rotation.x + (x - pressX) / 10
    ∧ (cursor_position_callback
        (mouse_button_callback s GLFW_MOUSE_BUTTON_LEFT GLFW_PRESS pressX pressY) x y).rotation.y
      = s.rotation.y + (y - pressY) / 10 := by
  intro s pressX pressY x y
  simp [mouse_button_callback, cursor_position_callback, GLFW_MOUSE_BUTTON_LEFT, GLFW_PRESS]

end Bunny
